import Mathlib

/-!
Shallow embedding of the IdleNet agent's job-execution and self-update core:
the resource manager (internal/resource), the job executor (internal/executor),
the WASM sandbox (internal/wasm) and the updater (internal/updater).
File contents are modelled as `Option (List Nat)` (byte lists), the filesystem
as a total map from paths to such contents, and external effects (HTTP
responses, syscall failures) as explicit environment parameters.
-/

namespace IdleNet

/-- A filesystem: each path holds either nothing or a byte sequence. -/
def FS : Type := String → Option (List Nat)

/-- Update the file at path `p` to contents `v` (`none` = file absent). -/
def FS.set (fs : FS) (p : String) (v : Option (List Nat)) : FS :=
  fun q => if q = p then v else fs q

theorem FS.set_same (fs : FS) (p : String) (v : Option (List Nat)) :
    fs.set p v p = v := by
  simp [FS.set]

theorem FS.set_other (fs : FS) (p q : String) (v : Option (List Nat))
    (h : q ≠ p) : fs.set p v q = fs q := by
  simp [FS.set, h]

/-- Appending a nonempty suffix changes a path: used for `destPath + ".tmp"`
and `exePath + ".backup"` never aliasing the base path. -/
theorem append_suffix_ne (s t : String) (h : t ≠ "") : s ++ t ≠ s := by
  intro he
  apply h
  have hl : (s ++ t).length = s.length := congrArg String.length he
  rw [String.length_append] at hl
  have : t.length = 0 := by omega
  cases t with
  | mk data =>
    cases data with
    | nil => rfl
    | cons c cs => simp [String.length, List.length] at this

/-! ## internal/resource — Manager (GetLimits / ShouldRunJob / GetCoreCount)

The 5-second result cache is elided: the embedding models one fresh
computation of the limits, which is what every cached value was when stored.
`probe` is the outcome of `idle.GetActivityLevel()`: `none` when the probe
returned an error, `some a` for activity level `a`. `numCPU` is
`runtime.NumCPU()`. -/

/-- `isLaptop`: coarse laptop heuristic, `runtime.NumCPU() <= 8`. -/
def isLaptop (numCPU : Nat) : Bool := numCPU ≤ 8

/-- The preference/activity switch of `Manager.GetLimits`, before the
stability caps are applied. -/
def computeLimits (pref : String) (a : Nat) : Nat × Nat :=
  if pref = "aggressive" then
    if a > 80 then (80, 60) else if a > 50 then (50, 40) else (30, 25)
  else if pref = "balanced" then
    if a > 90 then (70, 50)
    else if a > 60 then (40, 30)
    else if a > 30 then (20, 15)
    else (10, 10)
  else if pref = "conservative" then
    if a > 95 then (50, 30) else if a > 80 then (25, 20) else (5, 5)
  else if pref = "idle-only" then
    if a > 95 then (60, 40) else (0, 0)
  else (20, 15)

/-- The "cap maximums for stability" step of `Manager.GetLimits`. -/
def capLimits (numCPU : Nat) (lims : Nat × Nat) : Nat × Nat :=
  let maxCPU := if isLaptop numCPU then 60 else 80
  let maxMem := if isLaptop numCPU then 40 else 60
  (min lims.1 maxCPU, min lims.2 maxMem)

/-- `Manager.GetLimits`: on probe error returns the fixed conservative
defaults `(10, 10)` immediately (before the caps); otherwise computes the
mode/activity tier and applies the platform caps. -/
def GetLimits (pref : String) (probe : Option Nat) (numCPU : Nat) : Nat × Nat :=
  match probe with
  | none => (10, 10)
  | some a => capLimits numCPU (computeLimits pref a)

/-- `Manager.ShouldRunJob`: true iff the current CPU ceiling is positive. -/
def ShouldRunJob (pref : String) (probe : Option Nat) (numCPU : Nat) : Bool :=
  decide (0 < (GetLimits pref probe numCPU).1)

/-- `Manager.GetCoreCount`: `(totalCores * cpuLimit) / 100`, forced up to 1
when it floors to 0 while the CPU limit is positive. -/
def GetCoreCount (pref : String) (probe : Option Nat) (numCPU : Nat) : Nat :=
  let cpuLimit := (GetLimits pref probe numCPU).1
  let allowedCores := numCPU * cpuLimit / 100
  if allowedCores < 1 ∧ 0 < cpuLimit then 1 else allowedCores

/-! ### Claims C7 and C8 (resource manager) -/

/-- C7 counterexample: in idle-only mode a probe failure yields `(10, 10)`,
whereas a fully-active host (activity level 0) yields `(0, 0)`; the claimed
equality between the probe-failure limits and the activity-0 limits is false,
and in particular a probe failure leaves `cpuPercent = 10 ≠ 0`, so jobs may
start. -/
theorem getLimits_probe_failure_cex :
    GetLimits "idle-only" none 4 = (10, 10) ∧
    GetLimits "idle-only" (some 0) 4 = (0, 0) ∧
    GetLimits "idle-only" none 4 ≠ GetLimits "idle-only" (some 0) 4 ∧
    ShouldRunJob "idle-only" none 4 = true := by
  refine ⟨rfl, rfl, by decide, rfl⟩

/-- C7 (amended): when the activity probe fails, `GetLimits` returns the fixed
conservative defaults `(10, 10)` in every mode — it does not reproduce the
per-mode fully-active (activity 0) limits; consequently `ShouldRunJob` is true
on probe failure even in idle-only mode. -/
theorem getLimits_probe_failure_fixed_defaults (pref : String) (numCPU : Nat) :
    GetLimits pref none numCPU = (10, 10) ∧
    ShouldRunJob pref none numCPU = true := by
  exact ⟨rfl, rfl⟩

/-- C8: for every mode, probe outcome and host core count, `GetCoreCount`
returns `floor(totalCores * cpuPercent / 100)` except that the result is
forced up to 1 whenever `cpuPercent > 0`; hence the allowed core count is
positive whenever `cpuPercent` is. -/
theorem getCoreCount_floor_min_one (pref : String) (probe : Option Nat)
    (numCPU : Nat) :
    GetCoreCount pref probe numCPU =
      (if 0 < (GetLimits pref probe numCPU).1 then
        max 1 (numCPU * (GetLimits pref probe numCPU).1 / 100)
      else numCPU * (GetLimits pref probe numCPU).1 / 100) ∧
    (0 < (GetLimits pref probe numCPU).1 → 0 < GetCoreCount pref probe numCPU) := by
  unfold GetCoreCount
  set cpu := (GetLimits pref probe numCPU).1 with hcpu
  set a := numCPU * cpu / 100 with ha
  constructor
  · by_cases hpos : 0 < cpu
    · by_cases hlt : a < 1
      · simp only [hlt, hpos, and_self, if_true, hpos, if_pos]
        omega
      · simp only [hlt, false_and, if_false, if_pos hpos]
        omega
    · have : ¬ (a < 1 ∧ 0 < cpu) := by tauto
      simp only [this, if_false, if_neg hpos]
  · intro hpos
    by_cases hlt : a < 1
    · simp [hlt, hpos]
    · simp only [hlt, false_and, if_false]
      omega

/-- C8 witness: on a single-core host with a 5% CPU ceiling the floor is 0
but the returned core count is still positive. -/
theorem getCoreCount_floor_min_one_witness :
    0 < GetCoreCount "conservative" (some 0) 1 :=
  (getCoreCount_floor_min_one "conservative" (some 0) 1).2 (by decide)

/-! ## internal/executor — downloadAndVerify

The SHA-256 accumulator is abstracted as a function `hash` from byte
sequences to hex strings; the code streams the body through it and compares
the result with the expected digest, treating the hash as a black box.
The HTTP response, and the possible failures of `os.Create` and `io.Copy`,
are supplied by a `FetchEnv`. -/

/-- The error outcomes of `downloadAndVerify`, mirroring the `fmt.Errorf`
sites; the checksum error carries both the expected and the actual digest. -/
inductive FetchError where
  | network
  | badStatus (code : Nat)
  | createFailed
  | writeFailed
  | checksumMismatch (expected actual : String)
  | renameFailed
deriving DecidableEq

/-- External outcomes for one fetch attempt: the HTTP response (`none` =
transport error, otherwise status code and body), whether `os.Create`
succeeds, whether `io.Copy` fails after writing a prefix of `k` bytes, and
whether the final `os.Rename` succeeds. -/
structure FetchEnv where
  httpResp : Option (Nat × List Nat)
  createOk : Bool
  copyFailAfter : Option Nat
  renameOk : Bool

/-- `JobExecutor.downloadAndVerify`: streams the body to `destPath + ".tmp"`
while hashing it; on digest mismatch the deferred `os.Remove` deletes the
temporary file and the error carries both digests; on match the temporary
file is renamed onto `destPath` (after which the deferred remove is a no-op
on the now-absent temporary path). -/
def downloadAndVerify (hash : List Nat → String) (env : FetchEnv)
    (destPath expected : String) (fs : FS) : FS × Option FetchError :=
  match env.httpResp with
  | none => (fs, some .network)
  | some (status, body) =>
    if status ≠ 200 then (fs, some (.badStatus status))
    else
      let tempPath := destPath ++ ".tmp"
      if ¬ env.createOk then (fs, some .createFailed)
      else
        match env.copyFailAfter with
        | some k =>
          (((fs.set tempPath (some (body.take k))).set tempPath none),
            some .writeFailed)
        | none =>
          let fs1 := fs.set tempPath (some body)
          let actual := hash body
          if actual ≠ expected then
            (fs1.set tempPath none, some (.checksumMismatch expected actual))
          else
            if env.renameOk then
              ((fs1.set destPath (some body)).set tempPath none, none)
            else
              (fs1.set tempPath none, some .renameFailed)

theorem tmp_ne_dest (d : String) : d ++ ".tmp" ≠ d :=
  append_suffix_ne d ".tmp" (by decide)

/-- On every failing path, `downloadAndVerify` leaves the destination path's
contents unchanged. -/
theorem downloadAndVerify_fail_dest_unchanged (hash : List Nat → String)
    (env : FetchEnv) (destPath expected : String) (fs : FS)
    (h : (downloadAndVerify hash env destPath expected fs).2 ≠ none) :
    (downloadAndVerify hash env destPath expected fs).1 destPath = fs destPath := by
  have hnd : destPath ≠ destPath ++ ".tmp" := Ne.symm (tmp_ne_dest destPath)
  unfold downloadAndVerify at h ⊢
  rcases hr : env.httpResp with _ | ⟨status, body⟩ <;> simp only [hr] at h ⊢
  by_cases hs : status = 200
  case neg => simp [hs]
  subst hs
  by_cases hc : env.createOk
  case neg => simp [hc]
  rcases hk : env.copyFailAfter with _ | k <;> simp only [hk] at h ⊢
  · by_cases hm : hash body = expected
    · by_cases hrn : env.renameOk
      · simp [hc, hm, hrn] at h
      · simp [hc, hm, hrn, FS.set, hnd]
    · simp [hc, hm, FS.set, hnd]
  · simp [hc, FS.set, hnd]

/-- On success, the destination holds exactly the downloaded body, the body
was served with status 200, its digest equals the expected digest, and the
`io.Copy` and rename succeeded. -/
theorem downloadAndVerify_ok (hash : List Nat → String) (env : FetchEnv)
    (destPath expected : String) (fs : FS)
    (h : (downloadAndVerify hash env destPath expected fs).2 = none) :
    ∃ body, env.httpResp = some (200, body) ∧ hash body = expected ∧
      (downloadAndVerify hash env destPath expected fs).1 destPath = some body := by
  have hnd : destPath ≠ destPath ++ ".tmp" := Ne.symm (tmp_ne_dest destPath)
  unfold downloadAndVerify at h ⊢
  rcases hr : env.httpResp with _ | ⟨status, body⟩ <;> simp only [hr] at h ⊢
  · exact absurd h (by simp)
  by_cases hs : status = 200
  case neg => simp [hs] at h
  subst hs
  by_cases hc : env.createOk
  case neg => simp [hc] at h
  rcases hk : env.copyFailAfter with _ | k <;> simp only [hk] at h ⊢
  · by_cases hm : hash body = expected
    · by_cases hrn : env.renameOk
      · refine ⟨body, rfl, hm, ?_⟩
        simp [hc, hm, hrn, FS.set, hnd]
      · simp [hc, hm, hrn] at h
    · simp [hc, hm] at h
  · simp [hc] at h

/-- On digest mismatch (body fully delivered and written), the error carries
both digests, the temporary file is gone, and the destination is untouched. -/
theorem downloadAndVerify_mismatch_detail (hash : List Nat → String)
    (env : FetchEnv) (destPath expected : String) (fs : FS) (body : List Nat)
    (hhttp : env.httpResp = some (200, body)) (hcr : env.createOk = true)
    (hcp : env.copyFailAfter = none) (hne : hash body ≠ expected) :
    (downloadAndVerify hash env destPath expected fs).2 =
      some (.checksumMismatch expected (hash body)) ∧
    (downloadAndVerify hash env destPath expected fs).1 (destPath ++ ".tmp") = none ∧
    (downloadAndVerify hash env destPath expected fs).1 destPath = fs destPath := by
  have hnd : destPath ≠ destPath ++ ".tmp" := Ne.symm (tmp_ne_dest destPath)
  unfold downloadAndVerify
  refine ⟨?_, ?_, ?_⟩ <;>
    simp [hhttp, hcr, hcp, hne, FS.set, hnd]

/-! ### Claims C2 and C10 (artifact fetcher) -/

/-- C2: on digest mismatch `downloadAndVerify` removes the temporary file,
leaves the previous destination contents unchanged and fails with an error
carrying both digests; on digest match (and successful rename) the
destination afterwards holds exactly the downloaded, verified bytes, and on
every failure path whatsoever the destination is unchanged. -/
theorem downloadAndVerify_mismatch_and_match (hash : List Nat → String)
    (env : FetchEnv) (destPath expected : String) (fs : FS) :
    (∀ body, env.httpResp = some (200, body) → env.createOk = true →
      env.copyFailAfter = none → hash body ≠ expected →
      (downloadAndVerify hash env destPath expected fs).2 =
        some (.checksumMismatch expected (hash body)) ∧
      (downloadAndVerify hash env destPath expected fs).1 (destPath ++ ".tmp") = none ∧
      (downloadAndVerify hash env destPath expected fs).1 destPath = fs destPath) ∧
    ((downloadAndVerify hash env destPath expected fs).2 = none →
      ∃ body, env.httpResp = some (200, body) ∧ hash body = expected ∧
        (downloadAndVerify hash env destPath expected fs).1 destPath = some body) ∧
    ((downloadAndVerify hash env destPath expected fs).2 ≠ none →
      (downloadAndVerify hash env destPath expected fs).1 destPath = fs destPath) := by
  refine ⟨?_, ?_, ?_⟩
  · intro body hhttp hcr hcp hne
    exact downloadAndVerify_mismatch_detail hash env destPath expected fs body
      hhttp hcr hcp hne
  · exact downloadAndVerify_ok hash env destPath expected fs
  · exact downloadAndVerify_fail_dest_unchanged hash env destPath expected fs

/-- C2 witness: a concrete mismatching fetch (expected digest "aa", actual
digest "hash:1" of body `[1]`) fails with both digests in the error, leaves
the previously present destination bytes `[9]` in place and no temporary
file; a matching fetch installs the body. -/
theorem downloadAndVerify_mismatch_and_match_witness :
    ((downloadAndVerify (fun b => "hash:" ++ toString b.length)
        ⟨some (200, [1]), true, none, true⟩ "dest" "aa"
        (fun p => if p = "dest" then some [9] else none)).2 =
      some (.checksumMismatch "aa" "hash:1") ∧
     (downloadAndVerify (fun b => "hash:" ++ toString b.length)
        ⟨some (200, [1]), true, none, true⟩ "dest" "aa"
        (fun p => if p = "dest" then some [9] else none)).1 ("dest" ++ ".tmp") = none ∧
     (downloadAndVerify (fun b => "hash:" ++ toString b.length)
        ⟨some (200, [1]), true, none, true⟩ "dest" "aa"
        (fun p => if p = "dest" then some [9] else none)).1 "dest" = some [9]) ∧
    ∃ body, (some (200, [1]) : Option (Nat × List Nat)) = some (200, body) ∧
      ("hash:" ++ toString body.length = "hash:1") ∧
      (downloadAndVerify (fun b => "hash:" ++ toString b.length)
        ⟨some (200, [1]), true, none, true⟩ "dest" "hash:1"
        (fun p => if p = "dest" then some [9] else none)).1 "dest" = some body := by
  constructor
  · exact (downloadAndVerify_mismatch_and_match
      (fun b => "hash:" ++ toString b.length)
      ⟨some (200, [1]), true, none, true⟩ "dest" "aa"
      (fun p => if p = "dest" then some [9] else none)).1 [1] rfl rfl rfl (by decide)
  · exact (downloadAndVerify_mismatch_and_match
      (fun b => "hash:" ++ toString b.length)
      ⟨some (200, [1]), true, none, true⟩ "dest" "hash:1"
      (fun p => if p = "dest" then some [9] else none)).2.1 (by decide)

/-- C10: if nothing was at `destPath + ".tmp"` beforehand, then after
`downloadAndVerify` returns — success, HTTP failure, write failure or digest
mismatch — nothing is at `destPath + ".tmp"`. -/
theorem downloadAndVerify_no_temp_left (hash : List Nat → String)
    (env : FetchEnv) (destPath expected : String) (fs : FS)
    (h : fs (destPath ++ ".tmp") = none) :
    (downloadAndVerify hash env destPath expected fs).1 (destPath ++ ".tmp") = none := by
  unfold downloadAndVerify
  rcases env.httpResp with _ | ⟨status, body⟩
  · exact h
  by_cases hs : status ≠ 200
  · simp [hs, h]
  · simp only [hs, if_false]
    by_cases hc : ¬ env.createOk
    · simp [hc, h]
    · simp only [hc, if_false]
      rcases env.copyFailAfter with _ | k
      · by_cases hm : hash body ≠ expected
        · simp [hm, FS.set_same]
        · by_cases hrn : env.renameOk <;> simp [hm, hrn, FS.set_same]
      · simp [FS.set_same]

/-- C10 witness: a concrete digest-mismatch fetch into an initially empty
filesystem leaves nothing at the temporary path. -/
theorem downloadAndVerify_no_temp_left_witness :
    (downloadAndVerify (fun _ => "d") ⟨some (200, [1, 2]), true, none, true⟩
      "dest" "other" (fun _ => none)).1 ("dest" ++ ".tmp") = none :=
  downloadAndVerify_no_temp_left (fun _ => "d")
    ⟨some (200, [1, 2]), true, none, true⟩ "dest" "other" (fun _ => none) rfl

/-! ## internal/wasm — Sandbox

`Sandbox.Execute` is embedded with the wasmtime engine's behaviour supplied
by an `ExecEnv`: whether compilation, WASI setup and instantiation succeed,
whether the entry function exists, the outcome of the guest call (timeout,
trap, or normal return) raced against the wall-clock timer, and the fuel the
store reports as consumed. Wall-clock timestamps are not modelled. -/

/-- Security limits of the sandbox (`SandboxConfig`); durations in seconds. -/
structure SandboxConfig where
  MaxMemoryPages : Nat
  MaxExecutionTimeSec : Nat
  MaxStackDepth : Nat
  AllowNetworking : Bool
  AllowFileSystem : Bool
  CPUTimeLimitSec : Nat

/-- `DefaultSandboxConfig`: 64 pages (4MB), 30s wall clock, stack depth 1000,
no networking, no filesystem, 10s CPU time. -/
def DefaultSandboxConfig : SandboxConfig :=
  ⟨64, 30, 1000, false, false, 10⟩

/-- Outcome of the racing `select` around `fn.Call`: the wall-clock timer
fired first, the guest trapped (including fuel exhaustion), or the guest
returned (with or without a value, rendered as a string). -/
inductive CallOutcome where
  | timeout
  | trap (msg : String)
  | ok (ret : Option String)

/-- Engine-side outcomes for one `Execute` call. `fuelConsumed` is what
`store.FuelConsumed()` reports: the fuel the guest consumed. -/
structure ExecEnv where
  compileOk : Bool
  wasiOk : Bool
  instOk : Bool
  funcFound : Bool
  call : CallOutcome
  fuelConsumed : Nat

/-- `ExecutionResult`: outcome record of one sandbox execution (wall-clock
timestamps and memory tracking elided). -/
structure ExecutionResult where
  Success : Bool := false
  Output : String := ""
  Error : String := ""
  FuelUsed : Nat := 0

/-- The fuel quota granted to the store:
`uint64(CPUTimeLimit.Seconds() * 1000000)`. -/
def fuelLimitOf (cfg : SandboxConfig) : Nat := cfg.CPUTimeLimitSec * 1000000

/-- `Sandbox.Execute`: every branch — compilation failure, WASI setup
failure, instantiation failure, missing entry function, timeout, trap,
normal return — produces `(result, nil)`; the Go error return is never
non-nil. On the paths that reach the call, `result.FuelUsed` is set to
`fuelLimit - fuelConsumed` in `uint64` arithmetic. -/
def sandboxExecute (cfg : SandboxConfig) (funcName : String) (env : ExecEnv) :
    ExecutionResult × Option String :=
  let fuelLimit := fuelLimitOf cfg
  if ¬ env.compileOk then
    ({ Error := "WASM compilation failed" }, none)
  else if ¬ env.wasiOk then
    ({ Error := "WASI setup failed" }, none)
  else if ¬ env.instOk then
    ({ Error := "WASM instantiation failed" }, none)
  else if ¬ env.funcFound then
    ({ Error := "Function " ++ funcName ++ " not found in WASM module" }, none)
  else
    let fuelUsed := (fuelLimit + (2 ^ 64 - env.fuelConsumed % 2 ^ 64)) % 2 ^ 64
    match env.call with
    | .timeout =>
      ({ Success := false, Error := "Execution timed out", FuelUsed := fuelUsed }, none)
    | .trap msg =>
      ({ Success := false, Error := "Execution error: " ++ msg,
         FuelUsed := fuelUsed }, none)
    | .ok ret =>
      ({ Success := true,
         Output := match ret with
                   | some v => "Return value: " ++ v
                   | none => "Function executed successfully",
         FuelUsed := fuelUsed }, none)

/-- `Sandbox.VerifyWASM`: structural validation (length, magic, version)
followed by a compilation check; `compileOk` stands for
`wasmtime.NewModule` succeeding on the bytes. -/
def VerifyWASM (compileOk : List Nat → Bool) (b : List Nat) : Option String :=
  if b.length < 8 then some "invalid WASM: file too short"
  else if b.take 4 ≠ [0x00, 0x61, 0x73, 0x6d] then
    some "invalid WASM: missing magic number"
  else if ¬ (b.getD 4 0 = 1 ∧ b.getD 5 0 = 0 ∧ b.getD 6 0 = 0 ∧ b.getD 7 0 = 0) then
    some "unsupported WASM version"
  else if ¬ compileOk b then some "WASM validation failed"
  else none

/-! ### Claims C9 and C6 (sandbox) -/

/-- C9: for every configuration, entry-function name and engine behaviour —
compilation failure, WASI failure, instantiation failure, missing function,
trap, fuel exhaustion, timeout or success — `Sandbox.Execute` reports the
outcome in the result and returns a nil Go error. -/
theorem sandboxExecute_error_always_none (cfg : SandboxConfig)
    (funcName : String) (env : ExecEnv) :
    (sandboxExecute cfg funcName env).2 = none := by
  unfold sandboxExecute
  by_cases h1 : env.compileOk <;> by_cases h2 : env.wasiOk <;>
    by_cases h3 : env.instOk <;> by_cases h4 : env.funcFound <;>
    rcases env.call with _ | msg | ret <;> simp [h1, h2, h3, h4]

/-- C6: with the default configuration (fuel quota 10,000,000) a guest that
consumes 4 units of fuel gets `FuelUsed = 9,999,996` — the *remaining*
quota — whereas the fuel actually consumed, quota granted minus quota
remaining, is 4; the code stores `fuelLimit - store.FuelConsumed()` instead
of `store.FuelConsumed()`. -/
theorem sandboxExecute_fuelUsed_reports_remaining :
    ((sandboxExecute DefaultSandboxConfig "main"
        ⟨true, true, true, true, .ok none, 4⟩).1).FuelUsed = 9999996 ∧
    fuelLimitOf DefaultSandboxConfig -
      (fuelLimitOf DefaultSandboxConfig - 4) = 4 ∧
    (9999996 : Nat) ≠ 4 := by
  refine ⟨?_, by decide, by decide⟩
  show (10 * 1000000 + (2 ^ 64 - 4 % 2 ^ 64)) % 2 ^ 64 = 9999996
  decide

/-! ## internal/executor — ExecuteJob -/

/-- `JobResult`: outcome of one job execution (timestamps elided). -/
structure JobResult where
  Success : Bool := false
  Output : String := ""
  Error : String := ""

/-- The environment of one `ExecuteJob` call: the resource manager's inputs,
whether `os.MkdirAll` succeeds, the fetch environment for the artifact URL,
the compile oracle used by `VerifyWASM`, and the engine behaviour for
`Sandbox.Execute`. -/
structure JobEnv where
  pref : String
  probe : Option Nat
  numCPU : Nat
  mkdirOk : Bool
  fetch : FetchEnv
  compileOk : List Nat → Bool
  exec : ExecEnv

/-- Instrumented outcome of `ExecuteJob`: the final filesystem, whether the
job directory was created, whether a download (HTTP request) was attempted
and its error, whether `Sandbox.Execute` was invoked and on which bytes, and
the Go return pair (`res` is `none` exactly when the Go code returns a nil
result with a non-nil error). -/
structure JobOutcome where
  fs : FS
  dirCreated : Bool
  downloadAttempted : Bool
  dlErr : Option FetchError
  executed : Bool
  execBytes : Option (List Nat)
  res : Option JobResult
  err : Option String

/-- The deferred `os.RemoveAll(jobDir)`: removes the artifact and any
temporary file inside the per-job directory. -/
def cleanupJobDir (fs : FS) (artifactPath : String) : FS :=
  (fs.set artifactPath none).set (artifactPath ++ ".tmp") none

/-- `JobExecutor.ExecuteJob`: admission check via
`resourceMgr.ShouldRunJob()`, `os.MkdirAll` of the per-job directory,
`downloadAndVerify` of the artifact, `os.ReadFile`, `VerifyWASM`, then
`Sandbox.Execute`; failures after admission are reported inside the
`JobResult` with a nil Go error. -/
def ExecuteJob (hash : List Nat → String) (env : JobEnv)
    (cfg : SandboxConfig) (workDir jobID expectedSHA256 : String)
    (fs : FS) : JobOutcome :=
  if ¬ ShouldRunJob env.pref env.probe env.numCPU then
    { fs := fs, dirCreated := false, downloadAttempted := false, dlErr := none,
      executed := false, execBytes := none, res := none,
      err := some "system too active to run jobs" }
  else if ¬ env.mkdirOk then
    { fs := fs, dirCreated := false, downloadAttempted := false, dlErr := none,
      executed := false, execBytes := none, res := none,
      err := some "failed to create job directory" }
  else
    let artifactPath := workDir ++ "/" ++ jobID ++ "/job.wasm"
    let dl := downloadAndVerify hash env.fetch artifactPath expectedSHA256 fs
    match dl.2 with
    | some e =>
      { fs := cleanupJobDir dl.1 artifactPath, dirCreated := true,
        downloadAttempted := true, dlErr := some e, executed := false,
        execBytes := none,
        res := some { Error := "Failed to download artifact" }, err := none }
    | none =>
      match dl.1 artifactPath with
      | none =>
        { fs := cleanupJobDir dl.1 artifactPath, dirCreated := true,
          downloadAttempted := true, dlErr := none, executed := false,
          execBytes := none,
          res := some { Error := "Failed to read WASM file" }, err := none }
      | some wasmBytes =>
        match VerifyWASM env.compileOk wasmBytes with
        | some e =>
          { fs := cleanupJobDir dl.1 artifactPath, dirCreated := true,
            downloadAttempted := true, dlErr := none, executed := false,
            execBytes := none,
            res := some { Error := "WASM verification failed: " ++ e },
            err := none }
        | none =>
          match sandboxExecute cfg "main" env.exec with
          | (_wres, some e) =>
            { fs := cleanupJobDir dl.1 artifactPath, dirCreated := true,
              downloadAttempted := true, dlErr := none, executed := true,
              execBytes := some wasmBytes,
              res := some { Success := false,
                            Error := "WASM execution setup failed: " ++ e },
              err := none }
          | (wres, none) =>
            { fs := cleanupJobDir dl.1 artifactPath, dirCreated := true,
              downloadAttempted := true, dlErr := none, executed := true,
              execBytes := some wasmBytes,
              res := some
                { Success := wres.Success,
                  Output :=
                    if wres.Success then
                      "WASM job completed successfully. " ++ wres.Output ++
                        ". Fuel used: " ++ toString wres.FuelUsed
                    else "",
                  Error := if wres.Success then "" else wres.Error },
              err := none }

/-! ### Claim C1 (job coordinator gating) -/

/-- C1: `ExecuteJob` invokes the sandbox only when the admission check
(`ShouldRunJob`, CPU ceiling > 0) and `downloadAndVerify` have both
succeeded, and then the bytes handed to the sandbox hash to the job's
declared digest; when admission is denied no job directory is created and no
download is attempted; when digest verification fails, execution is never
attempted. -/
theorem executeJob_admission_and_digest_gate (hash : List Nat → String)
    (env : JobEnv) (cfg : SandboxConfig) (workDir jobID expectedSHA256 : String)
    (fs : FS) :
    ((ExecuteJob hash env cfg workDir jobID expectedSHA256 fs).executed = true →
      ShouldRunJob env.pref env.probe env.numCPU = true ∧
      (ExecuteJob hash env cfg workDir jobID expectedSHA256 fs).dlErr = none ∧
      ∃ b, (ExecuteJob hash env cfg workDir jobID expectedSHA256 fs).execBytes
            = some b ∧ hash b = expectedSHA256) ∧
    (ShouldRunJob env.pref env.probe env.numCPU = false →
      (ExecuteJob hash env cfg workDir jobID expectedSHA256 fs).dirCreated = false ∧
      (ExecuteJob hash env cfg workDir jobID expectedSHA256 fs).downloadAttempted = false ∧
      (ExecuteJob hash env cfg workDir jobID expectedSHA256 fs).executed = false) ∧
    ((ExecuteJob hash env cfg workDir jobID expectedSHA256 fs).dlErr ≠ none →
      (ExecuteJob hash env cfg workDir jobID expectedSHA256 fs).executed = false) := by
  set artifactPath := workDir ++ "/" ++ jobID ++ "/job.wasm" with hap
  by_cases hrun : ShouldRunJob env.pref env.probe env.numCPU
  case neg =>
    refine ⟨?_, ?_, ?_⟩ <;> intro h <;> simp [ExecuteJob, hrun] at h ⊢
  by_cases hmk : env.mkdirOk
  case neg =>
    refine ⟨?_, ?_, ?_⟩ <;> intro h <;> simp [ExecuteJob, hrun, hmk] at h ⊢
  rcases hdl : (downloadAndVerify hash env.fetch artifactPath expectedSHA256 fs).2
    with _ | e
  · rcases hok : downloadAndVerify hash env.fetch artifactPath expectedSHA256 fs
      with ⟨fs1, r⟩
    have hr2 : r = none := by rw [hok] at hdl; exact hdl
    subst hr2
    obtain ⟨body, hhttp, hbody, hdest⟩ :=
      downloadAndVerify_ok hash env.fetch artifactPath expectedSHA256 fs hdl
    rw [hok] at hdest
    simp only at hdest
    refine ⟨?_, ?_, ?_⟩
    · intro hex
      refine ⟨hrun ▸ rfl, ?_, ?_⟩
      · simp [ExecuteJob, hrun, hmk, ← hap, hok, hdest]
        rcases hv : VerifyWASM env.compileOk body with _ | ve
        · rcases hsx : sandboxExecute cfg "main" env.exec with ⟨wres, werr⟩
          rcases werr with _ | we <;> simp [hsx]
        · simp
      · refine ⟨body, ?_, hbody⟩
        simp only [ExecuteJob, hrun, hmk, ite_true, ite_false, not_true_eq_false,
          if_false, ← hap, hok, hdest] at hex ⊢
        rcases hv : VerifyWASM env.compileOk body with _ | ve
        · rcases hsx : sandboxExecute cfg "main" env.exec with ⟨wres, werr⟩
          rcases werr with _ | we <;> simp [hv, hsx] at hex ⊢
        · simp [hv] at hex
    · intro hfalse
      rw [hrun] at hfalse
      exact absurd hfalse (by simp)
    · intro hne
      exfalso
      apply hne
      simp [ExecuteJob, hrun, hmk, ← hap, hok, hdest]
      rcases hv : VerifyWASM env.compileOk body with _ | ve
      · rcases hsx : sandboxExecute cfg "main" env.exec with ⟨wres, werr⟩
        rcases werr with _ | we <;> simp [hsx]
      · simp
  · refine ⟨?_, ?_, ?_⟩
    · intro hex
      exfalso
      simp [ExecuteJob, hrun, hmk, ← hap] at hex
      rcases hok : downloadAndVerify hash env.fetch artifactPath expectedSHA256 fs
        with ⟨fs1, r⟩
      rw [hok] at hdl
      simp only at hdl
      subst hdl
      simp [hok] at hex
    · intro hfalse
      rw [hrun] at hfalse
      exact absurd hfalse (by simp)
    · intro _
      simp [ExecuteJob, hrun, hmk, ← hap]
      rcases hok : downloadAndVerify hash env.fetch artifactPath expectedSHA256 fs
        with ⟨fs1, r⟩
      rw [hok] at hdl
      simp only at hdl
      subst hdl
      simp [hok]

/-- C1 witness: a concrete admitted job (balanced mode, activity 95, 4
cores) whose artifact downloads with a matching digest is executed, with the
executed bytes hashing to the declared digest. -/
theorem executeJob_admission_and_digest_gate_witness :
    ShouldRunJob "balanced" (some 95) 4 = true ∧
    (ExecuteJob (fun b => "h" ++ toString b.length)
      ⟨"balanced", some 95, 4, true,
        ⟨some (200, [0, 97, 115, 109, 1, 0, 0, 0]), true, none, true⟩,
        fun _ => true, ⟨true, true, true, true, .ok none, 4⟩⟩
      DefaultSandboxConfig "wd" "job1" "h8" (fun _ => none)).dlErr = none ∧
    ∃ b, (ExecuteJob (fun b => "h" ++ toString b.length)
      ⟨"balanced", some 95, 4, true,
        ⟨some (200, [0, 97, 115, 109, 1, 0, 0, 0]), true, none, true⟩,
        fun _ => true, ⟨true, true, true, true, .ok none, 4⟩⟩
      DefaultSandboxConfig "wd" "job1" "h8" (fun _ => none)).execBytes = some b ∧
      "h" ++ toString b.length = "h8" :=
  (executeJob_admission_and_digest_gate (fun b => "h" ++ toString b.length)
    ⟨"balanced", some 95, 4, true,
      ⟨some (200, [0, 97, 115, 109, 1, 0, 0, 0]), true, none, true⟩,
      fun _ => true, ⟨true, true, true, true, .ok none, 4⟩⟩
    DefaultSandboxConfig "wd" "job1" "h8" (fun _ => none)).1 (by decide)

/-! ## internal/updater — VersionChecker

Go compares strings byte-wise; on valid UTF-8 this coincides with
codepoint-lexicographic order, so Go's `<` on version tags is embedded as
lexicographic order on the tags' character lists. -/

/-- Go's `<` on strings: lexicographic order on the character sequences. -/
def charListLt : List Char → List Char → Bool
  | [], [] => false
  | [], _ :: _ => true
  | _ :: _, [] => false
  | a :: as, b :: bs =>
    if a < b then true else if b < a then false else charListLt as bs

/-- Go's `v1 < v2` on strings. -/
def goStrLt (a b : String) : Bool := charListLt a.data b.data

/-- `strings.TrimPrefix(s, "v")`: drop a leading `"v"` if present. -/
def trimV (s : String) : String :=
  match s.data with
  | 'v' :: rest => ⟨rest⟩
  | _ => s

/-- `VersionChecker.compareVersions`: plain string comparison — returns 1 if
`v1 > v2`, -1 if `v1 < v2`, 0 if equal. -/
def compareVersions (v1 v2 : String) : Int :=
  if goStrLt v2 v1 then 1 else if goStrLt v1 v2 then -1 else 0

/-- The `isNewer` computation of `VersionChecker.CheckForUpdate`: strip a
leading `v` from both tags and test `compareVersions(latest, current) > 0`. -/
def checkForUpdateIsNewer (tagName currentVersion : String) : Bool :=
  decide (compareVersions (trimV tagName) (trimV currentVersion) > 0)

/-- Split a character list on `'.'` (the component separator of
`major.minor.patch`). -/
def splitOnDot : List Char → List (List Char)
  | [] => [[]]
  | c :: cs =>
    if c = '.' then [] :: splitOnDot cs
    else
      match splitOnDot cs with
      | [] => [[c]]
      | p :: ps => (c :: p) :: ps

/-- Read a decimal digit sequence as a number. -/
def digitsToNat (l : List Char) : Nat :=
  l.foldl (fun acc c => acc * 10 + (c.toNat - 48)) 0

/-- Modelled from the spec: the numeric `major.minor.patch` components of a
version string — used only to compare the code's string ordering against the
semantic-version ordering the spec requires. -/
def semverParts (s : String) : List Nat :=
  (splitOnDot s.data).map digitsToNat

/-- Modelled from the spec: lexicographic comparison of numeric component
lists, the order semantic versioning induces on `major.minor.patch`. -/
def natListLt : List Nat → List Nat → Bool
  | [], [] => false
  | [], _ :: _ => true
  | _ :: _, [] => false
  | a :: as, b :: bs =>
    if a < b then true else if b < a then false else natListLt as bs

/-- Modelled from the spec: `latest` is semantically greater than
`current` (after stripping a leading `v`). -/
def semverGreater (latest current : String) : Bool :=
  natListLt (semverParts (trimV current)) (semverParts (trimV latest))

/-! ### Claim C3 (version comparison) -/

/-- C3 counterexample: version 10.0.0 is semantically greater than 2.0.0,
but the code's string comparison orders "10.0.0" below "2.0.0", so
`CheckForUpdate` does not report 10.0.0 as an update over 2.0.0. -/
theorem compareVersions_lexicographic_cex :
    semverGreater "10.0.0" "2.0.0" = true ∧
    checkForUpdateIsNewer "10.0.0" "2.0.0" = false := by
  constructor
  · decide
  · decide

/-- C3 (amended): `CheckForUpdate` orders versions by plain lexicographic
string comparison of the 'v'-stripped tags, not by semantic-version
components: it reports an update exactly when the latest tag string is
lexicographically greater than the current one. -/
theorem checkForUpdate_lexicographic (latest current : String) :
    checkForUpdateIsNewer latest current = true ↔
      goStrLt (trimV current) (trimV latest) = true := by
  unfold checkForUpdateIsNewer compareVersions
  by_cases h1 : goStrLt (trimV current) (trimV latest) = true
  · simp [h1]
  · by_cases h2 : goStrLt (trimV latest) (trimV current) = true <;>
      simp [h1, h2]

/-! ## internal/updater — SelfUpdater -/

/-- Failure injections for `ApplyUpdate`'s unix path: the outcomes of
`os.Chmod`, `os.Rename` and `syscall.Exec`. -/
structure ApplyEnv where
  chmodOk : Bool
  renameOk : Bool
  execOk : Bool

/-- `SelfUpdater.createBackup`: byte-for-byte copy of the current executable
to the backup path (opened, created, `io.Copy`ed). -/
def createBackup (fs : FS) (cur bak : String) : FS × Option String :=
  match fs cur with
  | none => (fs, some "open failed")
  | some b => (fs.set bak (some b), none)

/-- `SelfUpdater.applyUpdateUnix`: stat the current executable, chmod the new
binary to match, rename it onto the canonical path, then re-exec. Each
syscall can fail; a failed rename leaves both files in place. -/
def applyUpdateUnix (env : ApplyEnv) (fs : FS) (newExePath cur : String) :
    FS × Option String :=
  match fs cur with
  | none => (fs, some "stat failed")
  | some _ =>
    if ¬ env.chmodOk then (fs, some "chmod failed")
    else
      match fs newExePath with
      | none => (fs, some "rename failed: no such file")
      | some nb =>
        if ¬ env.renameOk then (fs, some "rename failed")
        else
          let fs1 := (fs.set cur (some nb)).set newExePath none
          if env.execOk then (fs1, none) else (fs1, some "exec failed")

/-- `SelfUpdater.ApplyUpdate`: create the backup, then replace the
executable (unix path modelled; the Windows batch-file helper is a
process-level effect outside the embedding). -/
def ApplyUpdate (env : ApplyEnv) (fs : FS) (newExePath cur bak : String) :
    FS × Option String :=
  match createBackup fs cur bak with
  | (fs1, some e) => (fs1, some ("failed to create backup: " ++ e))
  | (fs1, none) => applyUpdateUnix env fs1 newExePath cur

/-- `SelfUpdater.Rollback`: fails if no backup exists, otherwise renames the
backup onto the canonical executable path. -/
def Rollback (fs : FS) (cur bak : String) : FS × Option String :=
  match fs bak with
  | none => (fs, some "no backup found")
  | some b => ((fs.set bak none).set cur (some b), none)

/-! ### Claim C5 (rollback restores the original executable) -/

/-- C5: if the current executable exists (so `createBackup` completes) and
`ApplyUpdate` then fails at any later point — chmod, rename or re-exec —
`Rollback` succeeds and the canonical path afterwards holds exactly the
pre-update executable's bytes. -/
theorem rollback_restores_original (env : ApplyEnv) (fs : FS)
    (newExePath cur bak : String) (orig : List Nat)
    (hcur : fs cur = some orig) (hbc : bak ≠ cur) (hbn : bak ≠ newExePath)
    (hfail : (ApplyUpdate env fs newExePath cur bak).2 ≠ none) :
    (Rollback (ApplyUpdate env fs newExePath cur bak).1 cur bak).1 cur = some orig ∧
    (Rollback (ApplyUpdate env fs newExePath cur bak).1 cur bak).2 = none := by
  have hbak : ∀ g : FS, g bak = some orig →
      (Rollback g cur bak).1 cur = some orig ∧ (Rollback g cur bak).2 = none := by
    intro g hg
    unfold Rollback
    rw [hg]
    exact ⟨FS.set_same _ _ _, rfl⟩
  set fs1 : FS := fs.set bak (some orig) with hfs1
  have hfs1cur : fs1 cur = some orig := by
    rw [hfs1, FS.set_other _ _ _ _ (Ne.symm hbc)]
    exact hcur
  have hfs1bak : fs1 bak = some orig := FS.set_same _ _ _
  have happ : ApplyUpdate env fs newExePath cur bak
      = applyUpdateUnix env fs1 newExePath cur := by
    unfold ApplyUpdate createBackup
    rw [hcur]
  rw [happ] at hfail ⊢
  obtain ⟨ch, rn, ex⟩ := env
  unfold applyUpdateUnix at hfail ⊢
  rw [hfs1cur] at hfail ⊢
  cases ch
  · exact hbak fs1 hfs1bak
  · cases hnb : fs1 newExePath with
    | none =>
      exact hbak fs1 hfs1bak
    | some nb =>
      rw [hnb] at hfail
      cases rn
      · exact hbak fs1 hfs1bak
      · cases ex
        · apply hbak
          show ((fs1.set cur (some nb)).set newExePath none) bak = some orig
          rw [FS.set_other _ _ _ _ hbn, FS.set_other _ _ _ _ hbc]
          exact hfs1bak
        · exact absurd rfl hfail

/-- C5 witness: with a chmod failure after the backup, rollback restores the
original bytes `[7, 7]` at the canonical path. -/
theorem rollback_restores_original_witness :
    (Rollback (ApplyUpdate ⟨false, true, true⟩
        (fun p => if p = "/bin/agent" then some [7, 7]
                  else if p = "/tmp/new" then some [8] else none)
        "/tmp/new" "/bin/agent" "/bin/agent.backup").1
      "/bin/agent" "/bin/agent.backup").1 "/bin/agent" = some [7, 7] :=
  (rollback_restores_original ⟨false, true, true⟩
    (fun p => if p = "/bin/agent" then some [7, 7]
              else if p = "/tmp/new" then some [8] else none)
    "/tmp/new" "/bin/agent" "/bin/agent.backup" [7, 7]
    rfl (by decide) (by decide) (by decide)).1

/-! ## internal/updater — Downloader and UpdateManager -/

/-- A release asset: name, download URL, and (in the model) the bytes the
URL serves. -/
structure Asset where
  name : String
  downloadURL : String
  body : List Nat

/-- `Downloader.getAssetName`: `idlenet-GOOS-GOARCH`, plus `.exe` on
windows. -/
def getAssetName (goos goarch : String) : String :=
  let name := "idlenet-" ++ goos ++ "-" ++ goarch
  if goos = "windows" then name ++ ".exe" else name

/-- `Downloader.DownloadUpdate`: pick the first asset whose name matches the
platform asset name and download its bytes to `tempDir/assetName`, returning
the temp path; no digest is computed or checked on this path. -/
def DownloadUpdate (fs : FS) (tempDir goos goarch : String)
    (assets : List Asset) : FS × Except String String :=
  let assetName := getAssetName goos goarch
  match assets.find? (fun a => a.name == assetName) with
  | none =>
    (fs, Except.error ("no release found for platform " ++ goos ++ "/" ++ goarch))
  | some a =>
    let tempFile := tempDir ++ "/" ++ assetName
    (fs.set tempFile (some a.body), Except.ok tempFile)

/-- `Downloader.VerifyChecksum`: hash the file at `fp` and compare with the
expected digest. Defined in the source but never invoked by
`CheckAndUpdate`'s download/apply flow. -/
def VerifyChecksum (hash : List Nat → String) (fs : FS)
    (fp expected : String) : Option String :=
  match fs fp with
  | none => some "open failed"
  | some b =>
    if hash b ≠ expected then
      some ("checksum mismatch: expected " ++ expected ++ ", got " ++ hash b)
    else none

/-- `UpdateManager.CheckAndUpdate` after `CheckForUpdate` has fetched the
latest release: if the release's tag compares newer and `autoApply` is set,
`DownloadUpdate` writes the asset to a temp path which is handed directly to
`ApplyUpdate` (backup of the current executable, then replacement); on apply
failure `Rollback` runs. `VerifyChecksum` does not appear in this flow. -/
def CheckAndUpdate (env : ApplyEnv) (fs : FS)
    (tagName currentVersion tempDir goos goarch cur bak : String)
    (assets : List Asset) (autoApply : Bool) : FS × Option String :=
  if ¬ checkForUpdateIsNewer tagName currentVersion then (fs, none)
  else if ¬ autoApply then (fs, none)
  else
    match DownloadUpdate fs tempDir goos goarch assets with
    | (fs1, Except.error e) => (fs1, some ("failed to download update: " ++ e))
    | (fs1, Except.ok updatePath) =>
      match ApplyUpdate env fs1 updatePath cur bak with
      | (fs2, some e) =>
        ((Rollback fs2 cur bak).1, some ("failed to apply update: " ++ e))
      | (fs2, none) => (fs2, none)

/-! ### Claim C4 (update apply sequence) -/

/-- C4 failing run: a release whose asset serves bytes `[222, 173, 190, 239]`
is downloaded and installed at the canonical executable path with no digest
verification anywhere in the flow — `CheckAndUpdate` succeeds, the canonical
path holds the unverified downloaded bytes, and the installed file would fail
`VerifyChecksum` against any digest (here one the downloaded bytes do not
hash to), demonstrating that a binary whose digest was never verified is
installed. (The code also backs up only after downloading, not before.) -/
theorem checkAndUpdate_installs_unverified_binary :
    (CheckAndUpdate ⟨true, true, true⟩
        (fun p => if p = "/usr/bin/idlenet" then some [0, 1] else none)
        "1.0.1" "1.0.0" "/tmp" "linux" "amd64"
        "/usr/bin/idlenet" "/usr/bin/idlenet.backup"
        [⟨"idlenet-linux-amd64", "https://example.com/a", [222, 173, 190, 239]⟩]
        true).2 = none ∧
    (CheckAndUpdate ⟨true, true, true⟩
        (fun p => if p = "/usr/bin/idlenet" then some [0, 1] else none)
        "1.0.1" "1.0.0" "/tmp" "linux" "amd64"
        "/usr/bin/idlenet" "/usr/bin/idlenet.backup"
        [⟨"idlenet-linux-amd64", "https://example.com/a", [222, 173, 190, 239]⟩]
        true).1 "/usr/bin/idlenet" = some [222, 173, 190, 239] ∧
    VerifyChecksum (fun b => toString b.length)
      (CheckAndUpdate ⟨true, true, true⟩
        (fun p => if p = "/usr/bin/idlenet" then some [0, 1] else none)
        "1.0.1" "1.0.0" "/tmp" "linux" "amd64"
        "/usr/bin/idlenet" "/usr/bin/idlenet.backup"
        [⟨"idlenet-linux-amd64", "https://example.com/a", [222, 173, 190, 239]⟩]
        true).1 "/usr/bin/idlenet" "expected-digest" =
      some "checksum mismatch: expected expected-digest, got 4" := by
  refine ⟨by decide, by decide, by decide⟩

end IdleNet
